import Mathlib

/-!
Formal model of the authentication, session and abuse-control core of the
SecurePay backend (`app/core/security.py`, `app/core/redis.py`,
`app/models/user.py`, `app/api/v1/endpoints/auth.py`).

Each Lean definition is a shallow embedding of the Python function of the
same name.  Machine-level concerns are modelled as follows: wall-clock time
is a natural number of seconds, the Redis backend is explicit state passed
in and out of each operation, password and TOTP verification are boolean
oracles (Argon2 and TOTP are external libraries), and Python exceptions are
`Except` results or explicit outcome variants.
-/

set_option autoImplicit false

/-! ## Credential service: `PasswordService.check_password_strength` -/

/-- Result record of `PasswordService.check_password_strength`
(keys `valid`, `issues`, `strength` of the returned dict). -/
structure StrengthResult where
  valid : Bool
  issues : List String
  strength : String
deriving Repr, DecidableEq

/-- The fixed punctuation set of the strength check
(`"!@#$%^&*()_+-=[]\x7b\x7d|;:,.<>?"` in the source). -/
def specialChars : String := "!@#$%^&*()_+-=[]\x7b\x7d|;:,.<>?"

/-- Python `any(c.isupper() for c in password)`. -/
def hasUpper (p : String) : Bool := p.toList.any Char.isUpper

/-- Python `any(c.islower() for c in password)`. -/
def hasLower (p : String) : Bool := p.toList.any Char.isLower

/-- Python `any(c.isdigit() for c in password)`. -/
def hasDigit (p : String) : Bool := p.toList.any Char.isDigit

/-- Python `any(c in "!@#$%^&*()_+-=[]\x7b\x7d|;:,.<>?" for c in password)`. -/
def hasSpecial (p : String) : Bool := p.toList.any (fun c => specialChars.toList.contains c)

/-- Embedding of `PasswordService.check_password_strength`: each failed rule
appends one issue string; `valid` is emptiness of the issue list; the label is
`"strong"` with zero issues, `"weak"` with more than two, else `"moderate"`. -/
def check_password_strength (password : String) : StrengthResult :=
  let issues : List String :=
    (if password.length < 12 then ["Password must be at least 12 characters long"] else []) ++
    (if hasUpper password then [] else ["Password must contain at least one uppercase letter"]) ++
    (if hasLower password then [] else ["Password must contain at least one lowercase letter"]) ++
    (if hasDigit password then [] else ["Password must contain at least one digit"]) ++
    (if hasSpecial password then [] else ["Password must contain at least one special character"])
  { valid := issues.length == 0
    issues := issues
    strength :=
      if issues.length == 0 then "strong"
      else if 2 < issues.length then "weak" else "moderate" }

/-- Number of violated strength rules, with the same five conditions as
`check_password_strength`. -/
def strengthViolations (p : String) : Nat :=
  (if p.length < 12 then 1 else 0) +
  (if hasUpper p then 0 else 1) +
  (if hasLower p then 0 else 1) +
  (if hasDigit p then 0 else 1) +
  (if hasSpecial p then 0 else 1)

theorem issues_length_eq_violations (p : String) :
    (check_password_strength p).issues.length = strengthViolations p := by
  unfold check_password_strength strengthViolations
  split_ifs <;> simp

/-! ## Encryption service: `EncryptionService.mask_phone_number` -/

/-- Embedding of `EncryptionService.mask_phone_number`.  Python string slicing
`phone[:3]` is `take 3`, `phone[-3:]` is `drop (len - 3)` (for `len ≥ 3`), and
`"*" * (len - 6)` clamps at the empty string for `len < 6` exactly as
truncated subtraction does. -/
def mask_phone_number (phone : String) : String :=
  if phone.length ≤ 4 then
    String.mk (List.replicate phone.length '*')
  else
    String.mk (phone.toList.take 3 ++
      List.replicate (phone.length - 6) '*' ++
      phone.toList.drop (phone.length - 3))

theorem mask_index_of_six_le (l : List Char) (h6 : 6 ≤ l.length) (i : Nat)
    (hi : i < l.length) :
    (l.take 3 ++ List.replicate (l.length - 6) '*' ++ l.drop (l.length - 3))[i]? =
      if i < 3 ∨ l.length - 3 ≤ i then l[i]? else some '*' := by
  have hA : (l.take 3).length = 3 := by
    rw [List.length_take]; omega
  have hB : (List.replicate (l.length - 6) '*').length = l.length - 6 :=
    List.length_replicate _ _
  have hAB : (l.take 3 ++ List.replicate (l.length - 6) '*').length = l.length - 3 := by
    rw [List.length_append, hA, hB]; omega
  by_cases h1 : i < 3
  · rw [List.getElem?_append_left (by omega : i < (l.take 3 ++ List.replicate (l.length - 6) '*').length),
      List.getElem?_append_left (by omega : i < (l.take 3).length),
      List.getElem?_take_of_lt h1]
    simp [h1]
  · by_cases h2 : i < l.length - 3
    · rw [List.getElem?_append_left (by omega : i < (l.take 3 ++ List.replicate (l.length - 6) '*').length),
        List.getElem?_append_right (by omega : (l.take 3).length ≤ i)]
      have : (List.replicate (l.length - 6) '*')[i - (l.take 3).length]? = some '*' := by
        rw [List.getElem?_replicate]
        simp only [hA]
        rw [if_pos (by omega)]
      rw [this, if_neg (by omega)]
    · rw [List.getElem?_append_right (by omega : (l.take 3 ++ List.replicate (l.length - 6) '*').length ≤ i),
        List.getElem?_drop]
      have hidx : l.length - 3 + (i - (l.take 3 ++ List.replicate (l.length - 6) '*').length) = i := by
        rw [hAB]; omega
      rw [hidx, if_pos (by omega)]

/-- C5 counterexample: on the 5-character input `"12345"` the function returns
the 6-character string `"123345"`, so the output length differs from the input
length and nothing is masked even though the input is shorter than the
6-character reveal length. -/
theorem c5_mask_phone_counterexample :
    mask_phone_number "12345" = "123345" ∧
    (mask_phone_number "12345").length ≠ ("12345" : String).length ∧
    ((mask_phone_number "12345").toList.contains '*') = false := by
  decide

/-- C5 (amended): `mask_phone_number` is total and, for inputs of length at
most 4, masks the entire value; for inputs of length at least 6 it returns a
string of the same length revealing exactly the first 3 and last 3 characters
with every other position the mask character; for the one remaining length, 5,
it returns the 6-character concatenation of the first 3 and last 3 characters
(nothing masked), because `"*" * (5 - 6)` is empty. -/
theorem c5_mask_phone_number_spec (s : String) :
    (s.length ≤ 4 → mask_phone_number s = String.mk (List.replicate s.length '*')) ∧
    (6 ≤ s.length →
      (mask_phone_number s).length = s.length ∧
      ∀ i : Nat, i < s.length →
        (mask_phone_number s).toList[i]? =
          if i < 3 ∨ s.length - 3 ≤ i then s.toList[i]? else some '*') ∧
    (s.length = 5 →
      (mask_phone_number s).toList = s.toList.take 3 ++ s.toList.drop 2 ∧
      (mask_phone_number s).length = 6) := by
  have hlen : s.length = s.toList.length := rfl
  refine ⟨fun h4 => ?_, fun h6 => ⟨?_, fun i hi => ?_⟩, fun h5 => ⟨?_, ?_⟩⟩
  · unfold mask_phone_number
    rw [if_pos h4]
  · unfold mask_phone_number
    rw [if_neg (by omega)]
    show (s.toList.take 3 ++ List.replicate (s.length - 6) '*' ++
      s.toList.drop (s.length - 3)).length = s.length
    rw [List.length_append, List.length_append, List.length_take,
      List.length_replicate, List.length_drop]
    omega
  · unfold mask_phone_number
    rw [if_neg (by omega)]
    show (s.toList.take 3 ++ List.replicate (s.length - 6) '*' ++
        s.toList.drop (s.length - 3))[i]? = _
    rw [hlen] at h6 hi ⊢
    exact mask_index_of_six_le s.toList h6 i hi
  · unfold mask_phone_number
    rw [if_neg (by omega)]
    show s.toList.take 3 ++ List.replicate (s.length - 6) '*' ++
        s.toList.drop (s.length - 3) = s.toList.take 3 ++ s.toList.drop 2
    rw [h5]
    simp
  · unfold mask_phone_number
    rw [if_neg (by omega)]
    show (s.toList.take 3 ++ List.replicate (s.length - 6) '*' ++
        s.toList.drop (s.length - 3)).length = 6
    rw [List.length_append, List.length_append, List.length_take,
      List.length_replicate, List.length_drop]
    omega

/-- C5 witness: the amended theorem evaluated on the 10-character number
`"0171234567"`: same output length, first 3 and last 3 revealed, middle
masked, and on the short input `"123"` everything is masked. -/
theorem c5_mask_phone_number_spec_witness :
    mask_phone_number "123" = String.mk (List.replicate ("123" : String).length '*') ∧
    (mask_phone_number "0171234567").length = ("0171234567" : String).length := by
  refine ⟨(c5_mask_phone_number_spec "123").1 (by decide),
    ((c5_mask_phone_number_spec "0171234567").2.1 (by decide)).1⟩

/-- C8: a password satisfying all five strength rules yields
`valid = true`, an empty issue list and label `"strong"`; violating exactly
one rule yields exactly one issue string, `valid = false` and label
`"moderate"`; violating three or more rules yields label `"weak"`. -/
theorem c8_check_password_strength_spec (p : String) :
    ((12 ≤ p.length ∧ hasUpper p = true ∧ hasLower p = true ∧
        hasDigit p = true ∧ hasSpecial p = true) →
      check_password_strength p = ⟨true, [], "strong"⟩) ∧
    (strengthViolations p = 1 →
      (check_password_strength p).issues.length = 1 ∧
      (check_password_strength p).valid = false ∧
      (check_password_strength p).strength = "moderate") ∧
    (3 ≤ strengthViolations p →
      (check_password_strength p).strength = "weak") := by
  unfold check_password_strength strengthViolations
  split_ifs with h1 h2 h3 h4 h5 <;> simp_all

/-- C8 witness: a concrete strong password, a password violating exactly the
uppercase rule, and a password violating the length, uppercase and digit
rules. -/
theorem c8_check_password_strength_spec_witness :
    check_password_strength "Abcdefgh123!" = ⟨true, [], "strong"⟩ ∧
    (check_password_strength "abcdefgh123!").strength = "moderate" ∧
    (check_password_strength "ab!").strength = "weak" :=
  ⟨(c8_check_password_strength_spec "Abcdefgh123!").1 (by decide),
   ((c8_check_password_strength_spec "abcdefgh123!").2.1 (by decide)).2.2,
   (c8_check_password_strength_spec "ab!").2.2 (by decide)⟩

/-! ## Rate limiter: `RateLimiter.is_allowed` -/

/-- State of one Redis rate-limit key: the integer counter value and the
absolute time at which the key expires (set via `EXPIRE`). -/
structure RLEntry where
  count : Nat
  expireAt : Nat
deriving Repr, DecidableEq

/-- Redis expiry as observed by `GET`: a key whose expiry time has been
reached behaves exactly like an absent key. -/
def rlLive (st : Option RLEntry) (now : Nat) : Option RLEntry :=
  match st with
  | some e => if now < e.expireAt then some e else none
  | none => none

/-- Embedding of `RateLimiter.is_allowed` with a reachable backend: `GET` the
counter (an absent or expired key reads as 0); if the count is at or above the
limit return `(false, 0)` without writing; otherwise `INCR` and, exactly when
the count read was 0, `EXPIRE key window_seconds`.  Returns the result pair of
the Python function together with the key state after the call. -/
def is_allowed (limit window_seconds now : Nat) (st : Option RLEntry) :
    (Bool × Nat) × Option RLEntry :=
  match rlLive st now with
  | none =>
    if limit ≤ 0 then ((false, 0), st)
    else ((true, limit - 0 - 1), some ⟨1, now + window_seconds⟩)
  | some e =>
    if limit ≤ e.count then ((false, 0), st)
    else
      ((true, limit - e.count - 1),
       some ⟨e.count + 1, if e.count = 0 then now + window_seconds else e.expireAt⟩)

/-- One `is_allowed` call per element of `times`, threading the key state. -/
def runCalls (limit window : Nat) (times : List Nat) (st : Option RLEntry) :
    List (Bool × Nat) × Option RLEntry :=
  match times with
  | [] => ([], st)
  | t :: ts =>
    let r := is_allowed limit window t st
    let rest := runCalls limit window ts r.2
    (r.1 :: rest.1, rest.2)

theorem runCalls_from_count (L w t0 : Nat) :
    ∀ ts : List Nat, (∀ t ∈ ts, t < t0 + w) → ∀ c : Nat, 1 ≤ c → c ≤ L →
      runCalls L w ts (some ⟨c, t0 + w⟩) =
        ((List.range ts.length).map
           (fun i => if c + i < L then (true, L - (c + i) - 1) else (false, 0)),
         some ⟨min (c + ts.length) L, t0 + w⟩) := by
  intro ts
  induction ts with
  | nil =>
    intro _ c h1 hcL
    simp only [runCalls, List.length_nil, List.range_zero, List.map_nil,
      Prod.mk.injEq, Option.some.injEq, RLEntry.mk.injEq, true_and, and_true]
    omega
  | cons t ts ih =>
    intro hmem c h1 hcL
    have hlive : rlLive (some ⟨c, t0 + w⟩) t = some ⟨c, t0 + w⟩ := by
      simp [rlLive, hmem t (by simp)]
    by_cases hcltL : c < L
    · have hstep : is_allowed L w t (some ⟨c, t0 + w⟩) =
          ((true, L - c - 1), some ⟨c + 1, t0 + w⟩) := by
        simp only [is_allowed, hlive]
        rw [if_neg (by omega : ¬ L ≤ c), if_neg (by omega : ¬ c = 0)]
      rw [runCalls]
      simp only [hstep]
      rw [ih (fun x hx => hmem x (List.mem_cons_of_mem _ hx)) (c + 1) (by omega) (by omega)]
      simp only [Prod.mk.injEq]
      refine ⟨?_, ?_⟩
      · rw [List.length_cons, List.range_succ_eq_map, List.map_cons, List.map_map]
        refine List.cons_eq_cons.mpr ⟨?_, ?_⟩
        · rw [if_pos (by omega : c + 0 < L)]
          simp
        · refine List.map_congr_left (fun i _ => ?_)
          simp only [Function.comp_apply]
          rw [show c + 1 + i = c + (i + 1) from by omega, Nat.succ_eq_add_one]
      · rw [List.length_cons]
        simp only [Option.some.injEq, RLEntry.mk.injEq, and_true]
        omega
    · have hstep : is_allowed L w t (some ⟨c, t0 + w⟩) =
          ((false, 0), some ⟨c, t0 + w⟩) := by
        simp only [is_allowed, hlive]
        rw [if_pos (by omega : L ≤ c)]
      rw [runCalls]
      simp only [hstep]
      rw [ih (fun x hx => hmem x (List.mem_cons_of_mem _ hx)) c h1 hcL]
      simp only [Prod.mk.injEq]
      refine ⟨?_, ?_⟩
      · rw [List.length_cons, List.range_succ_eq_map, List.map_cons, List.map_map]
        refine List.cons_eq_cons.mpr ⟨?_, ?_⟩
        · rw [if_neg (by omega : ¬ c + 0 < L)]
        · refine List.map_congr_left (fun i _ => ?_)
          simp only [Function.comp_apply]
          rw [if_neg (by omega), if_neg (by omega)]
      · rw [List.length_cons]
        simp only [Option.some.injEq, RLEntry.mk.injEq, and_true]
        omega

/-- C3: for every limit `L ≥ 1` and window, starting from no counter, a
sequence of calls whose first call happens at `t0` and whose remaining calls
all fall before `t0 + w` (the same fixed window) returns `(true, L - i)` on
the `i`-th call for `i ≤ L`, `(false, 0)` on every later call, and leaves the
counter at `min n L` — a rejected call never increments it. -/
theorem c3_rate_limiter_window (L w t0 : Nat) (hL : 1 ≤ L) (ts : List Nat)
    (hts : ∀ t ∈ ts, t < t0 + w) :
    runCalls L w (t0 :: ts) none =
      ((List.range (ts.length + 1)).map
         (fun i => if i < L then (true, L - i - 1) else (false, 0)),
       some ⟨min (ts.length + 1) L, t0 + w⟩) := by
  have hstep : is_allowed L w t0 none =
      ((true, L - 0 - 1), some ⟨1, t0 + w⟩) := by
    simp only [is_allowed, rlLive]
    rw [if_neg (by omega : ¬ L ≤ 0)]
  rw [runCalls]
  simp only [hstep]
  rw [runCalls_from_count L w t0 ts hts 1 (by omega) hL]
  simp only [Prod.mk.injEq]
  refine ⟨?_, ?_⟩
  · rw [List.range_succ_eq_map, List.map_cons, List.map_map]
    refine List.cons_eq_cons.mpr ⟨?_, ?_⟩
    · rw [if_pos (by omega : (0 : Nat) < L)]
    · refine List.map_congr_left (fun i _ => ?_)
      simp only [Function.comp_apply]
      rw [show 1 + i = i + 1 from by omega, Nat.succ_eq_add_one]
  · simp only [Option.some.injEq, RLEntry.mk.injEq, and_true]
    omega

/-- C3 witness: limit 2, window 10, four calls at times 5, 5, 6, 14 inside the
window `[5, 15)`: the first two calls are admitted with remaining 1 then 0,
the last two rejected with remaining 0, and the counter stays at 2. -/
theorem c3_rate_limiter_window_witness :
    runCalls 2 10 [5, 5, 6, 14] none =
      ([(true, 1), (true, 0), (false, 0), (false, 0)], some ⟨2, 15⟩) := by
  have h := c3_rate_limiter_window 2 10 5 (by decide) [5, 6, 14] (by decide)
  simpa using h

/-- Embedding of `RateLimiter.is_allowed` including its `try`/`except`: every
backend call is guarded, and when the backend raises (`backendUp = false`) the
`except` branch returns `(True, limit)` and no key is touched. -/
def is_allowed_total (backendUp : Bool) (limit window_seconds now : Nat)
    (st : Option RLEntry) : (Bool × Nat) × Option RLEntry :=
  if backendUp then is_allowed limit window_seconds now st
  else ((true, limit), st)

/-- C9: when the key-value backend is unavailable, `is_allowed` fails open,
returning `allowed = true` with `remaining = limit` for every limit, window,
time and counter state, and leaves the counter untouched. -/
theorem c9_rate_limiter_fail_open (limit window now : Nat) (st : Option RLEntry) :
    is_allowed_total false limit window now st = ((true, limit), st) := rfl

/-! ## Session store: `SessionStore.update` -/

/-- State of one Redis session key: the serialized session record and the
absolute expiry time (sessions are always written with `SETEX`, so a live
session key always carries a TTL). -/
structure SessEntry where
  data : List (String × String)
  expireAt : Nat
deriving Repr, DecidableEq

/-- Redis expiry as observed on a session key: a key whose expiry time has
been reached behaves exactly like an absent key. -/
def sessLive (st : Option SessEntry) (now : Nat) : Option SessEntry :=
  match st with
  | some e => if now < e.expireAt then some e else none
  | none => none

/-- Redis `TTL key`: `-2` for an absent or expired key, otherwise the
remaining whole seconds until expiry (at least 1 for a live key). -/
def ttlCmd (st : Option SessEntry) (now : Nat) : Int :=
  match sessLive st now with
  | none => -2
  | some e => (e.expireAt : Int) - (now : Int)

/-- The `default_ttl` of `SessionStore` (24 hours). -/
def default_ttl : Nat := 86400

/-- Embedding of `SessionStore.update`: read `TTL key`; fail when it is
negative; otherwise `SETEX` the new serialized data under the same remaining
TTL.  Returns the Python boolean result and the key state after the call. -/
def SessionStore.update (now : Nat) (st : Option SessEntry)
    (data : List (String × String)) : Bool × Option SessEntry :=
  let ttl := ttlCmd st now
  if ttl < 0 then (false, st)
  else (true, some ⟨data, now + ttl.toNat⟩)

theorem sessLive_eq_some {st : Option SessEntry} {now : Nat} {e : SessEntry}
    (h : sessLive st now = some e) : st = some e ∧ now < e.expireAt := by
  cases st with
  | none => simp [sessLive] at h
  | some e' =>
    simp only [sessLive] at h
    by_cases hlt : now < e'.expireAt
    · rw [if_pos hlt] at h
      cases h
      exact ⟨rfl, hlt⟩
    · rw [if_neg hlt] at h
      cases h

/-- C7: updating a live session succeeds and preserves the entry's absolute
expiry time (hence its remaining TTL) while replacing the data; updating an
absent or expired session fails and writes nothing. -/
theorem c7_session_update_preserves_ttl (now : Nat) (st : Option SessEntry)
    (d : List (String × String)) :
    (∀ e, sessLive st now = some e →
      SessionStore.update now st d = (true, some ⟨d, e.expireAt⟩)) ∧
    (sessLive st now = none → SessionStore.update now st d = (false, st)) := by
  constructor
  · intro e he
    obtain ⟨-, hlt⟩ := sessLive_eq_some he
    unfold SessionStore.update ttlCmd
    rw [he]
    rw [if_neg (by omega : ¬ (e.expireAt : Int) - (now : Int) < 0)]
    have : ((e.expireAt : Int) - (now : Int)).toNat = e.expireAt - now := by omega
    rw [this]
    have : now + (e.expireAt - now) = e.expireAt := by omega
    rw [this]
  · intro he
    unfold SessionStore.update ttlCmd
    rw [he]
    rw [if_pos (by omega : (-2 : Int) < 0)]

/-- C7 witness: a session expiring at time 100, updated at time 40, keeps
expiry 100 (not `now + default_ttl`); at time 120 the same key is expired and
the update fails without writing. -/
theorem c7_session_update_preserves_ttl_witness :
    SessionStore.update 40 (some ⟨[("user_id", "1")], 100⟩) [("user_id", "2")] =
      (true, some ⟨[("user_id", "2")], 100⟩) ∧
    (100 : Nat) ≠ 40 + default_ttl ∧
    SessionStore.update 120 (some ⟨[("user_id", "1")], 100⟩) [("user_id", "2")] =
      (false, some ⟨[("user_id", "1")], 100⟩) := by
  refine ⟨(c7_session_update_preserves_ttl 40 _ _).1 ⟨[("user_id", "1")], 100⟩ (by decide),
    by decide,
    (c7_session_update_preserves_ttl 120 _ _).2 (by decide)⟩

/-! ## Account guard: the `login` endpoint -/

/-- Enumeration `UserStatus` of the user model. -/
inductive UStatus where
  | active | inactive | suspended | pending
deriving Repr, DecidableEq

/-- The security-relevant fields of the `User` row that `login` reads and
writes.  Password and TOTP verification are external boolean oracles, so the
hash and secret columns are not carried here. -/
structure UserRec where
  failed_login_attempts : Nat
  last_failed_login : Option Nat
  locked_until : Option Nat
  status : UStatus
  mfa_enabled : Bool
deriving Repr, DecidableEq

/-- Embedding of the property `User.is_locked`: locked iff `locked_until` is
set and `utcnow() < locked_until`. -/
def UserRec.is_locked (u : UserRec) (now : Nat) : Bool :=
  match u.locked_until with
  | none => false
  | some t => now < t

/-- Outcome of one `POST /login` request for a user present in the database,
one variant per `raise`/`return` site of the handler. -/
inductive LoginResult where
  | invalidCredentials
  | accountLocked (lockedUntil : Option Nat)
  | accountNotActive
  | mfaRequired
  | invalidMfaCode
  | success
deriving Repr, DecidableEq

/-- Embedding of the `login` handler (`auth.py`) for a user found by email.
`passwordMatches` is the value `PasswordService.verify_password` would return,
`mfaCodeProvided` whether `credentials.mfa_code` was supplied and
`mfaCodeValid` the value `MFAService.verify_totp` would return.  The result is
the response, the user row after the handler's commits, and a flag recording
whether `verify_password` was invoked on this attempt. -/
def login (u : UserRec) (passwordMatches : Bool)
    (mfaCodeProvided mfaCodeValid : Bool) (now : Nat) :
    LoginResult × UserRec × Bool :=
  if u.is_locked now then
    (.accountLocked u.locked_until, u, false)
  else if passwordMatches = false then
    let failed := u.failed_login_attempts + 1
    (.invalidCredentials,
     { u with
        failed_login_attempts := failed
        last_failed_login := some now
        locked_until := if 5 ≤ failed then some (now + 30 * 60) else u.locked_until },
     true)
  else if u.status ≠ .active then
    (.accountNotActive, u, true)
  else if u.mfa_enabled && !mfaCodeProvided then
    (.mfaRequired, u, true)
  else if u.mfa_enabled && !mfaCodeValid then
    (.invalidMfaCode, u, true)
  else
    (.success,
     { u with
        failed_login_attempts := 0
        last_failed_login := none
        locked_until := none },
     true)

/-- C2: while `locked_until` is set and in the future, every login attempt is
rejected with the locked-account error regardless of password or MFA input,
the row is unchanged, and `verify_password` is never invoked. -/
theorem c2_locked_rejects_without_password_check (u : UserRec)
    (pm mcp mcv : Bool) (now : Nat) (h : u.is_locked now = true) :
    login u pm mcp mcv now = (.accountLocked u.locked_until, u, false) := by
  unfold login
  rw [if_pos h]

/-- C2 witness: a user locked until time 100, at time 50, with the correct
password supplied: the attempt is rejected as locked and the password is not
evaluated. -/
theorem c2_locked_rejects_without_password_check_witness :
    login ⟨3, some 10, some 100, .active, false⟩ true false false 50 =
      (.accountLocked (some 100), ⟨3, some 10, some 100, .active, false⟩, false) :=
  c2_locked_rejects_without_password_check _ true false false 50 (by decide)

/-- A sequence of wrong-password login attempts (no MFA code), threading the
user row. -/
def runFailedLogins (u : UserRec) (times : List Nat) : List LoginResult × UserRec :=
  match times with
  | [] => ([], u)
  | t :: ts =>
    let r := login u false false false t
    let rest := runFailedLogins r.2.1 ts
    (r.1 :: rest.1, rest.2)

/-- C1 counterexample: an account with 0 prior failures, five wrong-password
attempts at time 100.  The 5th attempt does set `locked_until` to
`100 + 30 * 60`, but its response is the invalid-credentials error, not the
locked-account error — the locked rejection first appears on the 6th
attempt. -/
theorem c1_fifth_attempt_counterexample :
    (runFailedLogins ⟨0, none, none, .active, false⟩
        [100, 100, 100, 100, 100]).1.getLast? = some .invalidCredentials ∧
    (runFailedLogins ⟨0, none, none, .active, false⟩
        [100, 100, 100, 100, 100]).2.locked_until = some (100 + 30 * 60) := by
  decide

/-- C1 (amended): from 0 prior failures and no lockout, five consecutive
wrong-password attempts all answer invalid-credentials — including the 5th —
while the 5th sets `locked_until` to its time plus 30 minutes and the counter
to 5; any further attempt before that time, even with the correct password,
answers the locked-account error. -/
theorem c1_five_failures_lock (t1 t2 t3 t4 t5 : Nat) (u : UserRec)
    (h0 : u.failed_login_attempts = 0) (hl : u.locked_until = none) :
    runFailedLogins u [t1, t2, t3, t4, t5] =
      (List.replicate 5 .invalidCredentials,
       { u with
          failed_login_attempts := 5
          last_failed_login := some t5
          locked_until := some (t5 + 30 * 60) }) ∧
    ∀ pm mcp mcv : Bool, ∀ t6 : Nat, t6 < t5 + 30 * 60 →
      (login { u with
                failed_login_attempts := 5
                last_failed_login := some t5
                locked_until := some (t5 + 30 * 60) } pm mcp mcv t6).1 =
        .accountLocked (some (t5 + 30 * 60)) := by
  obtain ⟨fa, lf, lu, stt, mfa⟩ := u
  simp only at h0 hl
  subst h0 hl
  constructor
  · simp [runFailedLogins, login, UserRec.is_locked]
  · intro pm mcp mcv t6 h6
    unfold login
    rw [if_pos (by simp [UserRec.is_locked, h6])]

/-- C1 witness: the amended theorem at attempt times 10, 20, 30, 40, 50 and a
6th correct-password attempt at time 60 inside the lockout window. -/
theorem c1_five_failures_lock_witness :
    runFailedLogins ⟨0, none, none, .active, false⟩ [10, 20, 30, 40, 50] =
      (List.replicate 5 .invalidCredentials,
       ⟨5, some 50, some (50 + 30 * 60), .active, false⟩) ∧
    (login ⟨5, some 50, some (50 + 30 * 60), .active, false⟩ true false false 60).1 =
      .accountLocked (some (50 + 30 * 60)) := by
  have h := c1_five_failures_lock 10 20 30 40 50
    ⟨0, none, none, .active, false⟩ rfl rfl
  exact ⟨h.1, h.2 true false false 60 (by decide)⟩

/-- C4 counterexample: a user whose lockout (until time 100) has elapsed at
time 200 and whose counter still reads 5.  The account is no longer locked,
yet a single wrong-password attempt finds the counter at 5 — it was never
cleared — and immediately sets a fresh lockout until `200 + 30 * 60`. -/
theorem c4_state_not_cleared_counterexample :
    (UserRec.is_locked ⟨5, some 99, some 100, .active, false⟩ 200) = false ∧
    (login ⟨5, some 99, some 100, .active, false⟩ false false false 200).1 =
      .invalidCredentials ∧
    (login ⟨5, some 99, some 100, .active, false⟩ false false false 200).2.1.failed_login_attempts = 6 ∧
    (login ⟨5, some 99, some 100, .active, false⟩ false false false 200).2.1.locked_until =
      some (200 + 30 * 60) := by
  decide

/-- C4 (amended): the Account Security State is not cleared when the lockout
window elapses — the counter and `locked_until` persist and are reset only by
a successful login.  After the window elapses, a single wrong-password attempt
increments the old counter (so from a counter at or above 4 it reaches 5 or
more) and immediately sets a new 30-minute lockout; a successful login instead
clears the counter and `locked_until`. -/
theorem c4_state_persists_after_expiry (u : UserRec) (now : Nat)
    (hnl : u.is_locked now = false) (h4 : 4 ≤ u.failed_login_attempts) :
    login u false false false now =
      (.invalidCredentials,
       { u with
          failed_login_attempts := u.failed_login_attempts + 1
          last_failed_login := some now
          locked_until := some (now + 30 * 60) },
       true) ∧
    (u.status = .active → u.mfa_enabled = false →
      login u true false false now =
        (.success,
         { u with
            failed_login_attempts := 0
            last_failed_login := none
            locked_until := none },
         true)) := by
  constructor
  · unfold login
    rw [if_neg (by simp [hnl]), if_pos rfl]
    show (LoginResult.invalidCredentials,
      { u with
          failed_login_attempts := u.failed_login_attempts + 1
          last_failed_login := some now
          locked_until := if 5 ≤ u.failed_login_attempts + 1 then some (now + 30 * 60)
                          else u.locked_until },
      true) = _
    rw [if_pos (by omega : 5 ≤ u.failed_login_attempts + 1)]
  · intro hact hmfa
    unfold login
    rw [if_neg (by simp [hnl])]
    rw [if_neg (by simp)]
    rw [if_neg (by simp [hact])]
    rw [if_neg (by simp [hmfa])]
    rw [if_neg (by simp [hmfa])]

/-- C4 witness: the amended theorem on a user with counter 5 whose lockout
until time 100 has elapsed at time 200. -/
theorem c4_state_persists_after_expiry_witness :
    login ⟨5, some 99, some 100, .active, false⟩ false false false 200 =
      (.invalidCredentials, ⟨6, some 200, some (200 + 30 * 60), .active, false⟩, true) ∧
    login ⟨5, some 99, some 100, .active, false⟩ true false false 200 =
      (.success, ⟨0, none, none, .active, false⟩, true) := by
  have h := c4_state_persists_after_expiry ⟨5, some 99, some 100, .active, false⟩ 200
    (by decide) (by decide)
  exact ⟨h.1, h.2 rfl rfl⟩

/-! ## Token service: `JWTService` -/

/-- A JSON claim value as used in token payloads. -/
inductive JVal where
  | str (s : String)
  | num (n : Nat)
  | arr (l : List String)
deriving Repr, DecidableEq

/-- A claims dictionary: an association list with at most one binding per key,
giving Python `dict` get/assignment semantics via `lookupClaim`/`setClaim`. -/
abbrev Claims := List (String × JVal)

/-- Python `d.get(k)`. -/
def lookupClaim (d : Claims) (k : String) : Option JVal :=
  match d with
  | [] => none
  | (k', v) :: rest => if k' = k then some v else lookupClaim rest k

/-- Python `d[k] = v` (one key of a `dict.update`): replace an existing
binding or append a new one. -/
def setClaim (d : Claims) (k : String) (v : JVal) : Claims :=
  match d with
  | [] => [(k, v)]
  | (k', v') :: rest => if k' = k then (k, v) :: rest else (k', v') :: setClaim rest k v

theorem lookup_setClaim_same (d : Claims) (k : String) (v : JVal) :
    lookupClaim (setClaim d k v) k = some v := by
  induction d with
  | nil => simp [setClaim, lookupClaim]
  | cons p rest ih =>
    obtain ⟨k', v'⟩ := p
    by_cases h : k' = k
    · simp [setClaim, lookupClaim, h]
    · simp [setClaim, lookupClaim, h, ih]

theorem lookup_setClaim_other (d : Claims) (k k' : String) (v : JVal)
    (h : k' ≠ k) : lookupClaim (setClaim d k v) k' = lookupClaim d k' := by
  induction d with
  | nil =>
    simp only [setClaim, lookupClaim]
    rw [if_neg (fun hh => h hh.symm)]
  | cons p rest ih =>
    obtain ⟨k'', v''⟩ := p
    by_cases hk : k'' = k
    · subst hk
      simp only [setClaim, if_pos rfl, lookupClaim]
      rw [if_neg (fun hh => h hh.symm), if_neg (fun hh => h hh.symm)]
    · simp only [setClaim, if_neg hk, lookupClaim]
      by_cases hk' : k'' = k'
      · rw [if_pos hk', if_pos hk']
      · rw [if_neg hk', if_neg hk', ih]

/-- A token as produced by `jose.jwt.encode`: the payload together with the
secret and algorithm that signed it.  In the source a token is an opaque
signed string; the signature is valid at decode time iff the secret and
algorithm match, which is what carrying both fields models. -/
structure JWT where
  payload : Claims
  secret : String
  alg : String
deriving Repr, DecidableEq

/-- Embedding of `JWTService.create_access_token`: copy the claims, set
`exp` to now plus `settings.JWT_ACCESS_TOKEN_EXPIRE_MINUTES = 30` minutes
(unless an explicit `expires_delta` is passed), set `iat = now` and
`type = "access"`, and sign with the process-wide secret and
`settings.JWT_ALGORITHM = "HS256"`. -/
def create_access_token (jwtSecret : String) (now : Nat) (data : Claims)
    (expires_delta : Option Nat) : JWT :=
  let expire := match expires_delta with
    | some d => now + d
    | none => now + 30 * 60
  let to_encode :=
    setClaim (setClaim (setClaim data "exp" (.num expire)) "iat" (.num now))
      "type" (.str "access")
  ⟨to_encode, jwtSecret, "HS256"⟩

/-- Embedding of `JWTService.create_refresh_token`: `exp` is now plus
`settings.JWT_REFRESH_TOKEN_EXPIRE_DAYS = 7` days, plus `iat`,
`type = "refresh"` and a unique `jti`. -/
def create_refresh_token (jwtSecret : String) (now : Nat) (jti : String)
    (data : Claims) : JWT :=
  let to_encode :=
    setClaim (setClaim (setClaim (setClaim data
      "exp" (.num (now + 7 * 86400))) "iat" (.num now)) "type" (.str "refresh"))
      "jti" (.str jti)
  ⟨to_encode, jwtSecret, "HS256"⟩

/-- The `exp`-claim check performed by `jose.jwt.decode`: a present numeric
`exp` in the past makes decoding fail. -/
def expValid (p : Claims) (now : Nat) : Bool :=
  match lookupClaim p "exp" with
  | some (.num e) => decide (now ≤ e)
  | _ => true

/-- Embedding of `JWTService.decode_token` via `jose.jwt.decode`: fail on a
secret or algorithm mismatch or an expired `exp` claim, otherwise return the
payload (the handler turns the `JWTError` into an HTTP 401). -/
def decode_token (jwtSecret : String) (now : Nat) (t : JWT) :
    Except Unit Claims :=
  if t.secret = jwtSecret ∧ t.alg = "HS256" ∧ expValid t.payload now = true then
    .ok t.payload
  else .error ()

/-- Embedding of `JWTService.verify_token_type`:
`payload.get("type") == expected_type`. -/
def verify_token_type (payload : Claims) (expected : String) : Bool :=
  lookupClaim payload "type" == some (.str expected)

/-- C6 counterexample: a claims map that itself binds `"type"` (to
`"refresh"`).  The token issued from it decodes fine, but the decoded payload
does not contain that original claim — `dict.update` overwrote it with
`"access"` — so the payload does not contain all the original claims. -/
theorem c6_reserved_key_counterexample :
    lookupClaim [("type", JVal.str "refresh")] "type" = some (.str "refresh") ∧
    decode_token "s" 0 (create_access_token "s" 0 [("type", JVal.str "refresh")] none) =
      .ok (create_access_token "s" 0 [("type", JVal.str "refresh")] none).payload ∧
    lookupClaim (create_access_token "s" 0 [("type", JVal.str "refresh")] none).payload
        "type" ≠ some (.str "refresh") := by
  refine ⟨by decide, by rfl, by decide⟩

/-- C6 (amended): for every claims map that does not itself bind the reserved
keys `exp`, `iat` and `type`, decoding an unexpired access token issued under
the process-wide secret returns a payload containing all the original claims
plus `type = "access"`, `iat` = issue time and `exp` = issue time + 30
minutes; `verify_token_type` accepts it for `"access"` and rejects it for
`"refresh"`. -/
theorem c6_decode_access_token (secret : String) (data : Claims) (tIss tDec : Nat)
    (hexp : lookupClaim data "exp" = none)
    (hiat : lookupClaim data "iat" = none)
    (htyp : lookupClaim data "type" = none)
    (hfresh : tDec ≤ tIss + 30 * 60) :
    decode_token secret tDec (create_access_token secret tIss data none) =
      .ok (create_access_token secret tIss data none).payload ∧
    (∀ k v, lookupClaim data k = some v →
      lookupClaim (create_access_token secret tIss data none).payload k = some v) ∧
    lookupClaim (create_access_token secret tIss data none).payload "type" =
      some (.str "access") ∧
    lookupClaim (create_access_token secret tIss data none).payload "iat" =
      some (.num tIss) ∧
    lookupClaim (create_access_token secret tIss data none).payload "exp" =
      some (.num (tIss + 30 * 60)) ∧
    verify_token_type (create_access_token secret tIss data none).payload "access" = true ∧
    verify_token_type (create_access_token secret tIss data none).payload "refresh" = false := by
  have hpay : (create_access_token secret tIss data none).payload =
      setClaim (setClaim (setClaim data "exp" (.num (tIss + 30 * 60)))
        "iat" (.num tIss)) "type" (.str "access") := rfl
  have htype_look : lookupClaim (create_access_token secret tIss data none).payload "type" =
      some (.str "access") := by
    rw [hpay, lookup_setClaim_same]
  have hiat_look : lookupClaim (create_access_token secret tIss data none).payload "iat" =
      some (.num tIss) := by
    rw [hpay, lookup_setClaim_other _ _ _ _ (by decide), lookup_setClaim_same]
  have hexp_look : lookupClaim (create_access_token secret tIss data none).payload "exp" =
      some (.num (tIss + 30 * 60)) := by
    rw [hpay, lookup_setClaim_other _ _ _ _ (by decide),
      lookup_setClaim_other _ _ _ _ (by decide), lookup_setClaim_same]
  refine ⟨?_, ?_, htype_look, hiat_look, hexp_look, ?_, ?_⟩
  · unfold decode_token
    rw [if_pos ?_]
    refine ⟨rfl, rfl, ?_⟩
    unfold expValid
    rw [hexp_look]
    simpa using hfresh
  · intro k v hk
    have hk_exp : k ≠ "exp" := fun h => by rw [h, hexp] at hk; cases hk
    have hk_iat : k ≠ "iat" := fun h => by rw [h, hiat] at hk; cases hk
    have hk_typ : k ≠ "type" := fun h => by rw [h, htyp] at hk; cases hk
    rw [hpay, lookup_setClaim_other _ _ _ _ hk_typ,
      lookup_setClaim_other _ _ _ _ hk_iat,
      lookup_setClaim_other _ _ _ _ hk_exp, hk]
  · unfold verify_token_type
    rw [htype_look]
    rfl
  · unfold verify_token_type
    rw [htype_look]
    rfl

/-- C6 witness: the amended theorem on the claims map `{sub: "42"}` with
secret `"k"`, issued at time 0 and decoded at time 60. -/
theorem c6_decode_access_token_witness :
    decode_token "k" 60 (create_access_token "k" 0 [("sub", JVal.str "42")] none) =
      .ok (create_access_token "k" 0 [("sub", JVal.str "42")] none).payload ∧
    lookupClaim (create_access_token "k" 0 [("sub", JVal.str "42")] none).payload "sub" =
      some (.str "42") ∧
    verify_token_type (create_access_token "k" 0 [("sub", JVal.str "42")] none).payload
      "access" = true ∧
    verify_token_type (create_access_token "k" 0 [("sub", JVal.str "42")] none).payload
      "refresh" = false := by
  have h := c6_decode_access_token "k" [("sub", JVal.str "42")] 0 60 rfl rfl rfl
    (by decide)
  exact ⟨h.1, h.2.1 "sub" (JVal.str "42") rfl, h.2.2.2.2.2.1, h.2.2.2.2.2.2⟩

/-! ## Registration: the `register` endpoint -/

/-- The effects of `register` visible to the claims: committed user rows
(identified here by email, with optional phone) and created session-store
keys. -/
structure RegState where
  users : List (String × Option String)
  sessions : List String
deriving Repr, DecidableEq

/-- Failure modes of `register`: the two uniqueness rejections (HTTP 400) and
the uncaught Python `AttributeError` raised while building the response. -/
inductive RegError where
  | emailTaken
  | phoneTaken
  | attributeError
deriving Repr, DecidableEq

/-- The `TokenResponse` body of a successful registration. -/
structure TokenResponse where
  access_token : JWT
  refresh_token : JWT
  expires_in : Nat
  mfa_required : Bool
deriving Repr, DecidableEq

/-- Integer-valued attribute lookup on the `JWTService` class.  The class body
in `security.py` defines only the four static methods `create_access_token`,
`create_refresh_token`, `decode_token` and `verify_token_type`; in particular
`JWT_ACCESS_TOKEN_EXPIRE_MINUTES` is not among them (that constant is defined
on `settings` in `config.py`), so every integer attribute lookup on the class
yields nothing and Python raises `AttributeError`. -/
def JWTService_getIntAttr (name : String) : Option Nat :=
  if name = "JWT_ACCESS_TOKEN_EXPIRE_MINUTES" then none else none

/-- Embedding of the `register` handler: reject a duplicate email, then a
duplicate phone; otherwise commit the new user row, create the access and
refresh tokens, create the session, and build the `TokenResponse` — whose
`expires_in` argument evaluates `JWTService.JWT_ACCESS_TOKEN_EXPIRE_MINUTES`,
an attribute lookup that raises `AttributeError` after the row and session
were already committed.  The new row's database id is represented by its
(unique) email. -/
def register (jwtSecret : String) (now : Nat) (st : RegState)
    (email : String) (phone : Option String) (sessionId jti : String) :
    Except RegError TokenResponse × RegState :=
  if (st.users.map Prod.fst).contains email then
    (.error .emailTaken, st)
  else if (match phone with
           | some p => (st.users.filterMap Prod.snd).contains p
           | none => false) then
    (.error .phoneTaken, st)
  else
    let st1 : RegState := { st with users := st.users ++ [(email, phone)] }
    let access := create_access_token jwtSecret now
      [("sub", .str email), ("email", .str email), ("role", .str "viewer")] none
    let refresh := create_refresh_token jwtSecret now jti [("sub", .str email)]
    let st2 : RegState := { st1 with sessions := st1.sessions ++ [sessionId] }
    match JWTService_getIntAttr "JWT_ACCESS_TOKEN_EXPIRE_MINUTES" with
    | some m => (.ok ⟨access, refresh, m * 60, false⟩, st2)
    | none => (.error .attributeError, st2)

/-- C10: a registration that passes both uniqueness checks ends in
`AttributeError` — the response construction reads
`JWTService.JWT_ACCESS_TOKEN_EXPIRE_MINUTES`, which `JWTService` does not
define — and only after the user row and the session were created; hence
`register` never returns a successful `TokenResponse` on any input. -/
theorem c10_register_attribute_error (jwtSecret : String) (now : Nat)
    (st : RegState) (email : String) (phone : Option String) (sid jti : String) :
    ((st.users.map Prod.fst).contains email = false →
      (match phone with
       | some p => (st.users.filterMap Prod.snd).contains p
       | none => false) = false →
      register jwtSecret now st email phone sid jti =
        (.error .attributeError,
         ⟨st.users ++ [(email, phone)], st.sessions ++ [sid]⟩)) ∧
    ∀ r : TokenResponse, (register jwtSecret now st email phone sid jti).1 ≠ .ok r := by
  constructor
  · intro hE hP
    unfold register
    rw [if_neg (by simp only [hE]; exact Bool.false_ne_true),
      if_neg (by simp only [hP]; exact Bool.false_ne_true)]
    rfl
  · intro r
    unfold register
    by_cases hE : (st.users.map Prod.fst).contains email
    · rw [if_pos hE]
      intro h
      cases h
    · rw [if_neg hE]
      by_cases hP : (match phone with
          | some p => (st.users.filterMap Prod.snd).contains p
          | none => false)
      · rw [if_pos hP]
        intro h
        cases h
      · rw [if_neg hP]
        intro h
        cases h

/-- C10 witness: registering `"a@b.c"` with no phone against an empty
database commits the row and the session and then fails with the attribute
error. -/
theorem c10_register_attribute_error_witness :
    register "k" 0 ⟨[], []⟩ "a@b.c" none "sess1" "jti1" =
      (.error .attributeError, ⟨[("a@b.c", none)], ["sess1"]⟩) :=
  (c10_register_attribute_error "k" 0 ⟨[], []⟩ "a@b.c" none "sess1" "jti1").1
    (by decide) (by decide)
